import Mathlib

/-!
Verification of the clawd-wallet core: spend-limit validation, the MCP
payment-request tool, the TAP registry client (registration, demo
verification, relying-party verification), and the balance checker.

Monetary amounts are modelled as rationals (USDC amounts), timestamps as
integers (epoch milliseconds). Network transports (fetch) are modelled as
explicit outcome parameters: a rejected promise is an `Except.error` /
dedicated failure constructor, a resolved response carries the HTTP `ok`
flag, status text and parsed JSON body. Persistent stores (the OS keychain
slot for the TAP private key, the credential store holding agent identity
and attestation) are threaded as explicit state.
-/

namespace Clawd

/-- Status of a ledger entry, from the spec's Spend Ledger Entry data model. -/
inductive EntryStatus
  | pending
  | approved
  | rejected
  | failed
deriving DecidableEq, Repr

/-- A spend-ledger entry: timestamp (epoch ms), amount (USDC), status. -/
structure LedgerEntry where
  timestamp : ℤ
  amount : ℚ
  status : EntryStatus
deriving DecidableEq, Repr

/-- Spend-limit configuration (`~/.clawd/config.json` security section). -/
structure SecurityConfig where
  maxTransactionAmount : ℚ
  autoApproveUnder : ℚ
  dailyLimit : ℚ
deriving DecidableEq, Repr

/-- Milliseconds in 24 hours, the rolling daily window length. -/
def dayMs : ℤ := 86400000

namespace SpendLimits

/-- Modelled from the spec: the daily cumulative total consulted by the
Spend-Limit Validator (`src/security/limits.ts`, not present in the source
snapshot). It is the sum of the amounts of `approved` ledger entries whose
timestamp falls within the rolling 24-hour window ending at the current
instant; `pending`, `rejected` and `failed` entries are never counted. -/
def dailyTotal (now : ℤ) (ledger : List LedgerEntry) : ℚ :=
  ((ledger.filter fun e =>
      e.status == EntryStatus.approved &&
      decide (now - dayMs ≤ e.timestamp) && decide (e.timestamp ≤ now)).map
    (fun e => e.amount)).sum

/-- Result of `validateTransaction`: validity flag, accumulated error
messages, and the auto-approve signal. -/
structure ValidationResult where
  valid : Bool
  errors : List String
  autoApprove : Bool
deriving DecidableEq, Repr

/-- Modelled from the spec: `SpendLimits.validateTransaction(amount)`
(`src/security/limits.ts`, not present in the source snapshot). Checks, in
order: amount must be positive; amount must not exceed the per-transaction
ceiling; the rolling daily total plus the amount must not exceed the daily
limit. Error messages accumulate; the result is valid when no check fired,
and additionally signals auto-approve when valid and the amount is at or
under the auto-approve threshold. -/
def validateTransaction (cfg : SecurityConfig) (now : ℤ) (ledger : List LedgerEntry)
    (amount : ℚ) : ValidationResult :=
  let errors :=
    (if amount ≤ 0 then ["amount must be positive"] else []) ++
    (if amount > cfg.maxTransactionAmount then ["exceeds per-transaction limit"] else []) ++
    (if dailyTotal now ledger + amount > cfg.dailyLimit then ["would exceed daily limit"] else [])
  { valid := errors.isEmpty
    errors := errors
    autoApprove := errors.isEmpty && decide (amount ≤ cfg.autoApproveUnder) }

end SpendLimits

/-- Arguments of the `x402_payment_request` MCP tool
(`PaymentRequest` in `src/types`); `maxAmount` and `body` are optional. -/
structure MCPPaymentArgs where
  url : String
  method : String
  description : String
  maxAmount : Option ℚ
  body : Option String
deriving DecidableEq, Repr

/-- JavaScript truthiness of the optional `maxAmount` number: truthy
exactly when present and nonzero (`if (maxAmount)` in `tools.ts`). -/
def truthyAmount : Option ℚ → Bool
  | none => false
  | some v => decide (v ≠ 0)

/-- Observable side effects of `MCPTools.paymentRequest`, in order:
the spend-limit validation (local, no network), construction/initialization
of the `PaymentHandler`, and the outgoing payment request to the service. -/
inductive MCPEffect
  | limitsCheck (amount : ℚ)
  | handlerInit
  | paymentRequestSent (url : String)
deriving DecidableEq, Repr

/-- Result of the `x402_payment_request` tool: an early
`{success: false, error}` failure, or the payment handler's result
(opaque here). -/
inductive MCPResult
  | failure (error : String)
  | payment (result : String)
deriving DecidableEq, Repr

namespace MCPTools

/-- Embedding of `MCPTools.paymentRequest` (`src/mcp-server/tools.ts`):
if the declared `maxAmount` is truthy, run spend-limit validation and on
rejection return `{success: false, error: errors.join(', ')}` immediately;
otherwise construct the payment handler and execute the payment. The second
component is the trace of effects performed; `execResult` stands for the
opaque outcome of `PaymentHandler.executePayment`. -/
def paymentRequest (cfg : SecurityConfig) (now : ℤ) (ledger : List LedgerEntry)
    (execResult : String) (args : MCPPaymentArgs) : MCPResult × List MCPEffect :=
  if truthyAmount args.maxAmount then
    let amount := args.maxAmount.getD 0
    let validation := SpendLimits.validateTransaction cfg now ledger amount
    if validation.valid then
      (MCPResult.payment execResult,
        [MCPEffect.limitsCheck amount, MCPEffect.handlerInit,
         MCPEffect.paymentRequestSent args.url])
    else
      (MCPResult.failure (String.intercalate ", " validation.errors),
        [MCPEffect.limitsCheck amount])
  else
    (MCPResult.payment execResult,
      [MCPEffect.handlerInit, MCPEffect.paymentRequestSent args.url])

end MCPTools

/-- Lower-case hex digit of a value below 16 (`Buffer.toString('hex')`). -/
def hexDigit (n : ℕ) : Char :=
  if n < 10 then Char.ofNat (48 + n) else Char.ofNat (87 + n)

/-- Two-digit lower-case hex rendering of one byte. -/
def hexByte (b : ℕ) : String :=
  String.mk [hexDigit (b / 16 % 16), hexDigit (b % 16)]

/-- Hex encoding of a byte sequence, as `Buffer.from(bytes).toString('hex')`. -/
def bytesToHex (bs : List ℕ) : String :=
  String.join (bs.map hexByte)

/-- CAIP-10 chain-qualified address used throughout `registry.ts`:
`eip155:8453:` followed by the lower-cased wallet address. -/
def caip10 (walletAddress : String) : String :=
  "eip155:8453:" ++ walletAddress.toLower

/-- An Ed25519 key pair as produced by `TAPRegistry.generateKeyPair`:
the raw private-key bytes and the base64-rendered public key. -/
structure KeyPair where
  privateKey : List ℕ
  publicKey : String
deriving DecidableEq, Repr

/-- The agent identity persisted by `TAPCredentialManager.saveAgent`. -/
structure StoredAgent where
  agentId : String
  keyId : String
  publicKey : String
  registeredAt : String
  walletAddress : String
  name : String
  registryUrl : String
deriving DecidableEq, Repr

/-- An attestation as persisted by `TAPCredentialManager.saveAttestation`
(`TAPAttestation` in `src/tap/types`); timestamps as epoch milliseconds. -/
structure TAPAttestation where
  identityLevel : String
  attestationJwt : String
  issuedAt : ℤ
  expiresAt : ℤ
  issuer : String
deriving DecidableEq, Repr

/-- The two persistent stores touched by the TAP registry client: the OS
keychain slot holding the hex-encoded TAP private key, and the credential
store record of the agent identity. -/
structure TAPState where
  tapPrivateKeyHex : Option String
  agent : Option StoredAgent
deriving DecidableEq, Repr

/-- Observable effects of `TAPRegistry.registerAgent`, in order of
occurrence: the keychain write of the fresh private key, the challenge
request, the registration request, the credential-store write. -/
inductive TAPEffect
  | saveKey (hexKey : String)
  | challengeRequest
  | registrationRequest
  | saveAgentRecord
deriving DecidableEq, Repr

/-- Successful body of the `register-wallet` response: the registry-assigned
agent id, the key id of the submitted public key, and the verification URL. -/
structure RegSuccess where
  agentId : String
  keyId : String
  verificationUrl : String
deriving DecidableEq, Repr

/-- Outcome of the registration fetch: a rejected promise (network
failure), a non-2xx response (with the optional parsed `detail` and the
HTTP status text), or a parsed success body. -/
inductive RegFetchOutcome
  | transportFail (msg : String)
  | httpError (detail : Option String) (statusText : String)
  | success (r : RegSuccess)
deriving DecidableEq, Repr

/-- Value returned by a successful `registerAgent` call. -/
structure RegReturn where
  agentId : String
  verificationUrl : String
  keyId : String
  publicKey : String
deriving DecidableEq, Repr

namespace TAPRegistry

/-- Embedding of `TAPRegistry.generateKeyPair` (`src/tap/registry.ts`):
draws a fresh Ed25519 private key from the secure random source (the
`entropy` bytes) and derives the base64 public key. The Ed25519 public-key
derivation `ed.getPublicKeyAsync` is treated as an abstract function
`pubOf`. -/
def generateKeyPair (pubOf : List ℕ → String) (entropy : List ℕ) : KeyPair :=
  { privateKey := entropy, publicKey := pubOf entropy }

/-- Embedding of `TAPRegistry.registerAgent` (`src/tap/registry.ts`).
Steps, in source order: generate a fresh key pair; store its hex-encoded
private key in the keychain; request a SIWE challenge (`challenge` is that
fetch's outcome: rejected/thrown, or the challenge message); sign the
message with the wallet key (local, value opaque here); submit the
registration (`regOutcome`); on non-2xx throw the body's `detail` or
`Registration failed: <status text>`; on success persist the agent identity
and return the identifiers. Returns (result, final stores, effect trace). -/
def registerAgent (pubOf : List ℕ → String) (registryUrl : String)
    (walletAddress name nowIso : String) (entropy : List ℕ)
    (challenge : Except String String) (regOutcome : RegFetchOutcome)
    (st : TAPState) : Except String RegReturn × TAPState × List TAPEffect :=
  let kp := generateKeyPair pubOf entropy
  let keyHex := bytesToHex kp.privateKey
  let st1 : TAPState := { st with tapPrivateKeyHex := some keyHex }
  match challenge with
  | Except.error e =>
      (Except.error e, st1, [TAPEffect.saveKey keyHex, TAPEffect.challengeRequest])
  | Except.ok _siweMessage =>
      let fx := [TAPEffect.saveKey keyHex, TAPEffect.challengeRequest,
                 TAPEffect.registrationRequest]
      match regOutcome with
      | RegFetchOutcome.transportFail msg => (Except.error msg, st1, fx)
      | RegFetchOutcome.httpError detail statusText =>
          (Except.error (detail.getD ("Registration failed: " ++ statusText)), st1, fx)
      | RegFetchOutcome.success r =>
          let agent : StoredAgent :=
            { agentId := r.agentId, keyId := r.keyId, publicKey := kp.publicKey,
              registeredAt := nowIso, walletAddress := caip10 walletAddress,
              name := name, registryUrl := registryUrl }
          (Except.ok { agentId := r.agentId, verificationUrl := r.verificationUrl,
                       keyId := r.keyId, publicKey := kp.publicKey },
           { st1 with agent := some agent }, fx ++ [TAPEffect.saveAgentRecord])

/-- Identity block of a successful `verify-demo` response body. -/
structure IdentityData where
  level : String
  attestation_jwt : String
  issued_at : ℤ
  expires_at : ℤ
deriving DecidableEq, Repr

/-- Outcome of the `verify-demo` fetch: rejected promise, non-2xx response
(with the optional parsed `detail`), or the parsed identity block. -/
inductive DemoFetchOutcome
  | transportFail (msg : String)
  | rejected (detail : Option String)
  | accepted (identity : IdentityData)
deriving DecidableEq, Repr

/-- The `TAPVerificationResult` returned by `completeVerificationDemo`. -/
inductive DemoVerifyOutcome
  | verified (agentId : String) (identityLevel : String) (reputationScore : ℚ)
  | failed (error : String)
deriving DecidableEq, Repr

/-- Embedding of `TAPRegistry.completeVerificationDemo`
(`src/tap/registry.ts`): a rejected fetch propagates as an exception; a
non-2xx response yields `{status: 'failed', error: detail}` (falling back to
`Verification failed`) without touching the stores; a success builds the
attestation from the response's identity block (issuer is the registry URL),
persists it via `saveAttestation`, and reports verified with the new-user
baseline reputation 50. The second component is the attestation slot of the
credential store before/after. -/
def completeVerificationDemo (registryUrl agentId : String)
    (resp : DemoFetchOutcome) (store : Option TAPAttestation) :
    Except String DemoVerifyOutcome × Option TAPAttestation :=
  match resp with
  | DemoFetchOutcome.transportFail msg => (Except.error msg, store)
  | DemoFetchOutcome.rejected detail =>
      (Except.ok (DemoVerifyOutcome.failed (detail.getD "Verification failed")), store)
  | DemoFetchOutcome.accepted idd =>
      let att : TAPAttestation :=
        { identityLevel := idd.level, attestationJwt := idd.attestation_jwt,
          issuedAt := idd.issued_at, expiresAt := idd.expires_at,
          issuer := registryUrl }
      (Except.ok (DemoVerifyOutcome.verified agentId idd.level 50), some att)

/-- A resolved response of the `/v1/verify` endpoint as consumed by
`verifyAgent`: HTTP `ok` flag and status text, plus the parsed body fields. -/
structure VerifyHttpResponse where
  ok : Bool
  statusText : String
  valid : Bool
  error : Option String
  identity_level : Option String
  reputation_score : Option ℚ
deriving DecidableEq, Repr

/-- Value returned by `verifyAgent`. -/
structure VerifyAgentResult where
  valid : Bool
  identityLevel : Option String
  reputationScore : Option ℚ
  error : Option String
deriving DecidableEq, Repr

/-- Embedding of `TAPRegistry.verifyAgent` (`src/tap/registry.ts`). The
`transport` argument is the outcome of the single fetch: `Except.error`
for a rejected promise (there is no try/catch in the source, so it
propagates), `Except.ok` for a resolved response. A non-2xx response yields
`{valid: false, error: 'Verification failed: <status text>'}`; a 2xx body
with `valid: false` passes the body's error through; otherwise the identity
level and reputation score are returned. -/
def verifyAgent (transport : Except String VerifyHttpResponse) :
    Except String VerifyAgentResult :=
  match transport with
  | Except.error e => Except.error e
  | Except.ok resp =>
      if !resp.ok then
        Except.ok { valid := false, identityLevel := none, reputationScore := none,
                    error := some ("Verification failed: " ++ resp.statusText) }
      else if !resp.valid then
        Except.ok { valid := false, identityLevel := none, reputationScore := none,
                    error := resp.error }
      else
        Except.ok { valid := true, identityLevel := resp.identity_level,
                    reputationScore := resp.reputation_score, error := none }

end TAPRegistry

namespace BalanceChecker

/-- Embedding of `BalanceChecker.hasSufficientBalance`
(`src/wallet/balance.ts`): the balance fetch (`getBalance` plus the
`parseFloat` of its formatted amount) either throws (`Except.error`) or
yields the numeric balance; the function returns whether the balance is at
least the required amount, and `false` on any fetch error — it is total and
never throws. -/
def hasSufficientBalance (fetched : Except String ℚ) (requiredAmount : ℚ) : Bool :=
  match fetched with
  | Except.error _ => false
  | Except.ok balance => decide (requiredAmount ≤ balance)

end BalanceChecker

/-- A registry identity block whose `expires_at` is not after `issued_at`
(expiry 500 ms, issuance 1000 ms), used to probe attestation ingestion. -/
def badIdentity : TAPRegistry.IdentityData :=
  { level := "kyc", attestation_jwt := "jwt-token", issued_at := 1000, expires_at := 500 }

/-- C2: for all amounts `a`, `validateTransaction(a)` is invalid iff
`a ≤ 0`, or `a` exceeds the per-transaction ceiling, or the rolling daily
total of approved entries plus `a` exceeds the daily limit; and it signals
auto-approve iff it is valid and `a` is at or under the auto-approve
threshold. -/
theorem validateTransaction_spec (cfg : SecurityConfig) (now : ℤ)
    (ledger : List LedgerEntry) (a : ℚ) :
    ((SpendLimits.validateTransaction cfg now ledger a).valid = false ↔
      (a ≤ 0 ∨ a > cfg.maxTransactionAmount ∨
        SpendLimits.dailyTotal now ledger + a > cfg.dailyLimit)) ∧
    ((SpendLimits.validateTransaction cfg now ledger a).autoApprove = true ↔
      ((SpendLimits.validateTransaction cfg now ledger a).valid = true ∧
        a ≤ cfg.autoApproveUnder)) := by
  unfold SpendLimits.validateTransaction
  constructor
  · split_ifs with h1 h2 h3 <;> simp_all
  · split_ifs with h1 h2 h3 <;> simp_all

/-- C1: when the caller declares a (truthy) maximum amount and spend-limit
validation rejects it, `MCPTools.paymentRequest` returns the limit failure
built from the validation errors, and its effect trace contains no payment
handler construction and no outgoing request — only the local limits check. -/
theorem paymentRequest_limit_rejection (cfg : SecurityConfig) (now : ℤ)
    (ledger : List LedgerEntry) (execResult : String) (args : MCPPaymentArgs) (m : ℚ)
    (hm : args.maxAmount = some m) (hm0 : m ≠ 0)
    (hv : (SpendLimits.validateTransaction cfg now ledger m).valid = false) :
    MCPTools.paymentRequest cfg now ledger execResult args =
      (MCPResult.failure (String.intercalate ", "
          (SpendLimits.validateTransaction cfg now ledger m).errors),
        [MCPEffect.limitsCheck m]) ∧
    MCPEffect.handlerInit ∉ (MCPTools.paymentRequest cfg now ledger execResult args).2 ∧
    ∀ u, MCPEffect.paymentRequestSent u ∉
      (MCPTools.paymentRequest cfg now ledger execResult args).2 := by
  have hres : MCPTools.paymentRequest cfg now ledger execResult args =
      (MCPResult.failure (String.intercalate ", "
          (SpendLimits.validateTransaction cfg now ledger m).errors),
        [MCPEffect.limitsCheck m]) := by
    unfold MCPTools.paymentRequest
    rw [hm]
    simp [truthyAmount, hm0, hv]
  refine ⟨hres, ?_, ?_⟩
  · rw [hres]; simp
  · intro u; rw [hres]; simp

/-- Witness for C1 (end-to-end scenario B): max-per-transaction 10, payment
of 15 → rejected before any handler or network effect. -/
theorem paymentRequest_limit_rejection_witness :
    (⟨"https://svc", "GET", "d", some 15, none⟩ : MCPPaymentArgs).maxAmount = some 15 ∧
    (15 : ℚ) ≠ 0 ∧
    (SpendLimits.validateTransaction ⟨10, 1/10, 50⟩ 0 [] 15).valid = false ∧
    (MCPTools.paymentRequest ⟨10, 1/10, 50⟩ 0 [] "ok" ⟨"https://svc", "GET", "d", some 15, none⟩ =
      (MCPResult.failure (String.intercalate ", "
          (SpendLimits.validateTransaction ⟨10, 1/10, 50⟩ 0 [] 15).errors),
        [MCPEffect.limitsCheck 15]) ∧
    MCPEffect.handlerInit ∉
      (MCPTools.paymentRequest ⟨10, 1/10, 50⟩ 0 [] "ok" ⟨"https://svc", "GET", "d", some 15, none⟩).2 ∧
    ∀ u, MCPEffect.paymentRequestSent u ∉
      (MCPTools.paymentRequest ⟨10, 1/10, 50⟩ 0 [] "ok" ⟨"https://svc", "GET", "d", some 15, none⟩).2) :=
  ⟨rfl, by norm_num, by decide,
    paymentRequest_limit_rejection ⟨10, 1/10, 50⟩ 0 [] "ok"
      ⟨"https://svc", "GET", "d", some 15, none⟩ 15 rfl (by norm_num) (by decide)⟩

/-- C9: when the declared maximum is absent or exactly 0 (falsy in
JavaScript), `MCPTools.paymentRequest` skips spend-limit validation
entirely and proceeds to execute the payment. -/
theorem paymentRequest_zero_max_skips_validation (cfg : SecurityConfig) (now : ℤ)
    (ledger : List LedgerEntry) (execResult : String) (args : MCPPaymentArgs)
    (h : args.maxAmount = none ∨ args.maxAmount = some 0) :
    MCPTools.paymentRequest cfg now ledger execResult args =
      (MCPResult.payment execResult,
        [MCPEffect.handlerInit, MCPEffect.paymentRequestSent args.url]) ∧
    ∀ a, MCPEffect.limitsCheck a ∉
      (MCPTools.paymentRequest cfg now ledger execResult args).2 := by
  have hres : MCPTools.paymentRequest cfg now ledger execResult args =
      (MCPResult.payment execResult,
        [MCPEffect.handlerInit, MCPEffect.paymentRequestSent args.url]) := by
    unfold MCPTools.paymentRequest
    rcases h with h | h <;> rw [h] <;> simp [truthyAmount]
  exact ⟨hres, fun a => by rw [hres]; simp⟩

/-- Witness for C9: a declared maximum of exactly 0 skips validation and
the payment proceeds. -/
theorem paymentRequest_zero_max_skips_validation_witness :
    ((⟨"https://svc", "GET", "d", some 0, none⟩ : MCPPaymentArgs).maxAmount = none ∨
      (⟨"https://svc", "GET", "d", some 0, none⟩ : MCPPaymentArgs).maxAmount = some 0) ∧
    (MCPTools.paymentRequest ⟨10, 1/10, 50⟩ 0 [] "ok" ⟨"https://svc", "GET", "d", some 0, none⟩ =
      (MCPResult.payment "ok",
        [MCPEffect.handlerInit, MCPEffect.paymentRequestSent "https://svc"]) ∧
    ∀ a, MCPEffect.limitsCheck a ∉
      (MCPTools.paymentRequest ⟨10, 1/10, 50⟩ 0 [] "ok" ⟨"https://svc", "GET", "d", some 0, none⟩).2) :=
  ⟨Or.inr rfl,
    paymentRequest_zero_max_skips_validation ⟨10, 1/10, 50⟩ 0 [] "ok"
      ⟨"https://svc", "GET", "d", some 0, none⟩ (Or.inr rfl)⟩

/-- C3 counterexample: a transport-level fetch failure (rejected promise)
makes `verifyAgent` propagate the exception instead of returning a value
with `valid = false`, refuting the claim that any transport failure yields
`{valid: false}` rather than throwing. -/
theorem verifyAgent_transport_failure_propagates :
    TAPRegistry.verifyAgent (Except.error "fetch failed: network unreachable") =
      Except.error "fetch failed: network unreachable" ∧
    ∀ r : TAPRegistry.VerifyAgentResult,
      TAPRegistry.verifyAgent (Except.error "fetch failed: network unreachable") ≠
        Except.ok r := by
  exact ⟨rfl, fun r h => Except.noConfusion h⟩

/-- C3 amended: `verifyAgent` swallows any resolved non-2xx response,
returning `valid = false` with the status text in the error field rather
than throwing; but a transport-level fetch rejection is not caught and
propagates to the caller as an exception. -/
theorem verifyAgent_http_error_swallowed :
    ∀ (statusText : String) (v : Bool) (err il : Option String) (rs : Option ℚ)
      (e : String),
    TAPRegistry.verifyAgent (Except.ok
        { ok := false, statusText := statusText, valid := v, error := err,
          identity_level := il, reputation_score := rs }) =
      Except.ok { valid := false, identityLevel := none, reputationScore := none,
                  error := some ("Verification failed: " ++ statusText) } ∧
    TAPRegistry.verifyAgent (Except.error e) = Except.error e := by
  intro statusText v err il rs e
  exact ⟨rfl, rfl⟩

/-- C4: `completeVerificationDemo` persists an attestation exactly when the
registry accepts: a non-2xx rejection yields a failed result carrying the
registry's detail (falling back to `Verification failed`) with the stored
attestation unchanged; a transport failure propagates with the store
unchanged; an accepted response stores the attestation built from the
response and reports verified. -/
theorem completeVerificationDemo_persistence :
    ∀ (url aid msg : String) (d : Option String)
      (idd : TAPRegistry.IdentityData) (store : Option TAPAttestation),
    TAPRegistry.completeVerificationDemo url aid
        (TAPRegistry.DemoFetchOutcome.rejected d) store =
      (Except.ok (TAPRegistry.DemoVerifyOutcome.failed (d.getD "Verification failed")),
        store) ∧
    TAPRegistry.completeVerificationDemo url aid
        (TAPRegistry.DemoFetchOutcome.transportFail msg) store =
      (Except.error msg, store) ∧
    TAPRegistry.completeVerificationDemo url aid
        (TAPRegistry.DemoFetchOutcome.accepted idd) store =
      (Except.ok (TAPRegistry.DemoVerifyOutcome.verified aid idd.level 50),
        some { identityLevel := idd.level, attestationJwt := idd.attestation_jwt,
               issuedAt := idd.issued_at, expiresAt := idd.expires_at,
               issuer := url }) := by
  intro url aid msg d idd store
  exact ⟨rfl, rfl, rfl⟩

/-- C5 counterexample: a registry response whose attestation has
`expires_at` (500) not after `issued_at` (1000) is stored as-is and the
call reports verified — the client performs no malformed-issuer rejection,
refuting the ingestion invariant. -/
theorem malformed_attestation_stored :
    (TAPRegistry.completeVerificationDemo "https://reg" "agent-1"
        (TAPRegistry.DemoFetchOutcome.accepted badIdentity) none).2 =
      some { identityLevel := "kyc", attestationJwt := "jwt-token",
             issuedAt := 1000, expiresAt := 500, issuer := "https://reg" } ∧
    (500 : ℤ) ≤ 1000 ∧
    (TAPRegistry.completeVerificationDemo "https://reg" "agent-1"
        (TAPRegistry.DemoFetchOutcome.accepted badIdentity) none).1 =
      Except.ok (TAPRegistry.DemoVerifyOutcome.verified "agent-1" "kyc" 50) := by
  exact ⟨rfl, by decide, rfl⟩

/-- C5 amended: the client performs no `expiresAt > issuedAt` validation on
ingestion: even an accepted attestation with `expires_at ≤ issued_at` is
persisted exactly as returned and the completion reports verified. -/
theorem completeVerificationDemo_no_expiry_validation
    (url aid : String) (idd : TAPRegistry.IdentityData)
    (store : Option TAPAttestation) (_h : idd.expires_at ≤ idd.issued_at) :
    TAPRegistry.completeVerificationDemo url aid
        (TAPRegistry.DemoFetchOutcome.accepted idd) store =
      (Except.ok (TAPRegistry.DemoVerifyOutcome.verified aid idd.level 50),
        some { identityLevel := idd.level, attestationJwt := idd.attestation_jwt,
               issuedAt := idd.issued_at, expiresAt := idd.expires_at,
               issuer := url }) :=
  rfl

/-- Witness for the amended C5, at the violating identity block. -/
theorem completeVerificationDemo_no_expiry_validation_witness :
    badIdentity.expires_at ≤ badIdentity.issued_at ∧
    TAPRegistry.completeVerificationDemo "https://reg2" "agent-2"
        (TAPRegistry.DemoFetchOutcome.accepted badIdentity) none =
      (Except.ok (TAPRegistry.DemoVerifyOutcome.verified "agent-2" badIdentity.level 50),
        some { identityLevel := badIdentity.level,
               attestationJwt := badIdentity.attestation_jwt,
               issuedAt := badIdentity.issued_at, expiresAt := badIdentity.expires_at,
               issuer := "https://reg2" }) :=
  ⟨by decide,
    completeVerificationDemo_no_expiry_validation "https://reg2" "agent-2"
      badIdentity none (by decide)⟩

/-- C6: `registerAgent` is not idempotent: each call draws a fresh key pair
from the entropy source (distinct draws give distinct key pairs), and after
a second successful call with the same inputs (the registry assigning a
fresh key id) the credential store retains only the identity of the most
recent call, which differs from the first. -/
theorem registerAgent_not_idempotent (pubOf : List ℕ → String)
    (url wa nm nowIso msg1 msg2 : String) (e1 e2 : List ℕ)
    (r1 r2 : RegSuccess) (st : TAPState)
    (he : e1 ≠ e2) (hk : r1.keyId ≠ r2.keyId) :
    TAPRegistry.generateKeyPair pubOf e1 ≠ TAPRegistry.generateKeyPair pubOf e2 ∧
    (TAPRegistry.registerAgent pubOf url wa nm nowIso e1 (Except.ok msg1)
        (RegFetchOutcome.success r1) st).2.1.agent =
      some { agentId := r1.agentId, keyId := r1.keyId, publicKey := pubOf e1,
             registeredAt := nowIso, walletAddress := caip10 wa, name := nm,
             registryUrl := url } ∧
    (TAPRegistry.registerAgent pubOf url wa nm nowIso e2 (Except.ok msg2)
        (RegFetchOutcome.success r2)
        (TAPRegistry.registerAgent pubOf url wa nm nowIso e1 (Except.ok msg1)
          (RegFetchOutcome.success r1) st).2.1).2.1.agent =
      some { agentId := r2.agentId, keyId := r2.keyId, publicKey := pubOf e2,
             registeredAt := nowIso, walletAddress := caip10 wa, name := nm,
             registryUrl := url } ∧
    ({ agentId := r1.agentId, keyId := r1.keyId, publicKey := pubOf e1,
       registeredAt := nowIso, walletAddress := caip10 wa, name := nm,
       registryUrl := url } : StoredAgent) ≠
      { agentId := r2.agentId, keyId := r2.keyId, publicKey := pubOf e2,
        registeredAt := nowIso, walletAddress := caip10 wa, name := nm,
        registryUrl := url } := by
  refine ⟨fun h => he (congrArg KeyPair.privateKey h), rfl, rfl,
    fun h => hk (congrArg StoredAgent.keyId h)⟩

/-- Witness for C6: two registrations with identical inputs, distinct
entropy draws and registry-assigned key ids. -/
theorem registerAgent_not_idempotent_witness :
    ([0] : List ℕ) ≠ [1] ∧
    (⟨"a1", "k1", "v1"⟩ : RegSuccess).keyId ≠ (⟨"a1", "k2", "v2"⟩ : RegSuccess).keyId ∧
    (TAPRegistry.generateKeyPair (fun _ => "PK") [0] ≠
        TAPRegistry.generateKeyPair (fun _ => "PK") [1] ∧
      (TAPRegistry.registerAgent (fun _ => "PK") "https://reg" "0xAbC" "agent" "t"
          [0] (Except.ok "m1") (RegFetchOutcome.success ⟨"a1", "k1", "v1"⟩)
          ⟨none, none⟩).2.1.agent =
        some { agentId := "a1", keyId := "k1", publicKey := "PK",
               registeredAt := "t", walletAddress := caip10 "0xAbC",
               name := "agent", registryUrl := "https://reg" } ∧
      (TAPRegistry.registerAgent (fun _ => "PK") "https://reg" "0xAbC" "agent" "t"
          [1] (Except.ok "m2") (RegFetchOutcome.success ⟨"a1", "k2", "v2"⟩)
          (TAPRegistry.registerAgent (fun _ => "PK") "https://reg" "0xAbC" "agent" "t"
            [0] (Except.ok "m1") (RegFetchOutcome.success ⟨"a1", "k1", "v1"⟩)
            ⟨none, none⟩).2.1).2.1.agent =
        some { agentId := "a1", keyId := "k2", publicKey := "PK",
               registeredAt := "t", walletAddress := caip10 "0xAbC",
               name := "agent", registryUrl := "https://reg" } ∧
      ({ agentId := "a1", keyId := "k1", publicKey := "PK", registeredAt := "t",
         walletAddress := caip10 "0xAbC", name := "agent",
         registryUrl := "https://reg" } : StoredAgent) ≠
        { agentId := "a1", keyId := "k2", publicKey := "PK", registeredAt := "t",
          walletAddress := caip10 "0xAbC", name := "agent",
          registryUrl := "https://reg" }) :=
  ⟨by decide, by decide,
    registerAgent_not_idempotent (fun _ => "PK") "https://reg" "0xAbC" "agent" "t"
      "m1" "m2" [0] [1] ⟨"a1", "k1", "v1"⟩ ⟨"a1", "k2", "v2"⟩ ⟨none, none⟩
      (by decide) (by decide)⟩

/-- C7 counterexample: with no `detail` in the error body and HTTP status
text `Bad Request`, the thrown message is `Registration failed: Bad
Request`, which is not the status text verbatim — refuting the claimed
fallback. -/
theorem registration_fallback_message_prefixed :
    (TAPRegistry.registerAgent (fun _ => "PK") "https://reg" "0xA" "n" "t" [0]
        (Except.ok "m") (RegFetchOutcome.httpError none "Bad Request")
        ⟨none, none⟩).1 =
      Except.error "Registration failed: Bad Request" ∧
    "Registration failed: Bad Request" ≠ "Bad Request" := by
  exact ⟨rfl, by decide⟩

/-- C7 amended: on a non-2xx registration response the thrown message is
the registry's `detail` verbatim when present, and otherwise
`Registration failed: <status text>`; a call issues exactly one
registration request — the trace after a non-2xx, a transport failure or a
success contains the registration request once and is never extended by a
retry, and no registration request is issued when the challenge step
failed. -/
theorem registerAgent_error_surfacing :
    ∀ (pubOf : List ℕ → String) (url wa nm nowIso msg d statusText cerr : String)
      (e : List ℕ) (detail : Option String) (r : RegSuccess)
      (ro : RegFetchOutcome) (st : TAPState),
    (TAPRegistry.registerAgent pubOf url wa nm nowIso e (Except.ok msg)
        (RegFetchOutcome.httpError (some d) statusText) st).1 = Except.error d ∧
    (TAPRegistry.registerAgent pubOf url wa nm nowIso e (Except.ok msg)
        (RegFetchOutcome.httpError none statusText) st).1 =
      Except.error ("Registration failed: " ++ statusText) ∧
    (TAPRegistry.registerAgent pubOf url wa nm nowIso e (Except.ok msg)
        (RegFetchOutcome.httpError detail statusText) st).2.2 =
      [TAPEffect.saveKey (bytesToHex e), TAPEffect.challengeRequest,
       TAPEffect.registrationRequest] ∧
    (TAPRegistry.registerAgent pubOf url wa nm nowIso e (Except.ok msg)
        (RegFetchOutcome.transportFail cerr) st).2.2 =
      [TAPEffect.saveKey (bytesToHex e), TAPEffect.challengeRequest,
       TAPEffect.registrationRequest] ∧
    (TAPRegistry.registerAgent pubOf url wa nm nowIso e (Except.ok msg)
        (RegFetchOutcome.success r) st).2.2 =
      [TAPEffect.saveKey (bytesToHex e), TAPEffect.challengeRequest,
       TAPEffect.registrationRequest, TAPEffect.saveAgentRecord] ∧
    (TAPRegistry.registerAgent pubOf url wa nm nowIso e (Except.error cerr)
        ro st).2.2 =
      [TAPEffect.saveKey (bytesToHex e), TAPEffect.challengeRequest] := by
  intro pubOf url wa nm nowIso msg d statusText cerr e detail r ro st
  exact ⟨rfl, rfl, rfl, rfl, rfl, rfl⟩

/-- C8: `registerAgent` writes the fresh private key to the keychain before
any network call — the key save is the first effect of every run — so on a
failed challenge request, a transport-failed registration request or a
non-2xx registration response, the keychain already holds the new key while
the credential-store agent identity is unchanged. -/
theorem registerAgent_keychain_first :
    ∀ (pubOf : List ℕ → String) (url wa nm nowIso msg statusText cerr : String)
      (e : List ℕ) (detail : Option String) (ch : Except String String)
      (ro : RegFetchOutcome) (st : TAPState),
    (TAPRegistry.registerAgent pubOf url wa nm nowIso e (Except.error cerr) ro st).2.1 =
      { tapPrivateKeyHex := some (bytesToHex e), agent := st.agent } ∧
    (TAPRegistry.registerAgent pubOf url wa nm nowIso e (Except.error cerr) ro st).1 =
      Except.error cerr ∧
    (TAPRegistry.registerAgent pubOf url wa nm nowIso e (Except.ok msg)
        (RegFetchOutcome.httpError detail statusText) st).2.1 =
      { tapPrivateKeyHex := some (bytesToHex e), agent := st.agent } ∧
    (TAPRegistry.registerAgent pubOf url wa nm nowIso e (Except.ok msg)
        (RegFetchOutcome.transportFail cerr) st).2.1 =
      { tapPrivateKeyHex := some (bytesToHex e), agent := st.agent } ∧
    (TAPRegistry.registerAgent pubOf url wa nm nowIso e ch ro st).2.2.head? =
      some (TAPEffect.saveKey (bytesToHex e)) := by
  intro pubOf url wa nm nowIso msg statusText cerr e detail ch ro st
  refine ⟨rfl, rfl, rfl, rfl, ?_⟩
  cases ch <;> cases ro <;> rfl

/-- C10: `hasSufficientBalance` never throws; it returns `true` exactly
when the balance fetch succeeded and the fetched balance is at least the
required amount, and `false` on any fetch error. -/
theorem hasSufficientBalance_spec (fetched : Except String ℚ) (requiredAmount : ℚ) :
    BalanceChecker.hasSufficientBalance fetched requiredAmount = true ↔
      ∃ b, fetched = Except.ok b ∧ requiredAmount ≤ b := by
  cases fetched <;> simp [BalanceChecker.hasSufficientBalance]

end Clawd
